import Mathlib

/-!
Shallow embedding of the `node-rfm9x` driver (an SX1276-family LoRa radio
driver talking to the chip over a byte-oriented register bus).

Registers are modelled as a store `Regs : Nat → Nat` holding one byte per
address; bus traffic is modelled as explicit `BusOp` traces.  JavaScript
number arithmetic on the integer-valued quantities that appear here is
modelled exactly over `Nat`/`Int` (the one floating-point division,
`frequencyHz / RF95_FSTEP` with `RF95_FSTEP = 32000000 / 2^19 = 15625/256`,
is by an exactly representable constant and is modelled as the exact
rational it denotes, with `Math.round` as round-half-up).
-/

namespace RFM9x

/-- Register addresses (the `REGISTERS` table of the source). -/
def REG_FIFO : Nat := 0x00

def REG_OP_MODE : Nat := 0x01

def REG_FRF_MSB : Nat := 0x06

def REG_FRF_MID : Nat := 0x07

def REG_FRF_LSB : Nat := 0x08

def REG_PA_CONFIG : Nat := 0x09

def REG_FIFO_ADDR_PTR : Nat := 0x0D

def REG_FIFO_TX_BASE_ADDR : Nat := 0x0E

def REG_FIFO_RX_BASE_ADDR : Nat := 0x0F

def REG_IRQ_FLAGS : Nat := 0x12

def REG_RX_NB_BYTES : Nat := 0x13

def REG_PKT_SNR_VALUE : Nat := 0x19

def REG_PKT_RSSI_VALUE : Nat := 0x1A

def REG_MODEM_CONFIG_1 : Nat := 0x1D

def REG_MODEM_CONFIG_2 : Nat := 0x1E

def REG_PREAMBLE_MSB : Nat := 0x20

def REG_PREAMBLE_LSB : Nat := 0x21

def REG_PAYLOAD_LENGTH : Nat := 0x22

def REG_MODEM_CONFIG_3 : Nat := 0x26

def REG_DIO_MAPPING_1 : Nat := 0x40

def REG_VERSION : Nat := 0x42

def REG_PA_DAC : Nat := 0x4D

/-- Operating-mode field values (the `OP_MODES` table of the source). -/
def OP_SLEEP : Nat := 0b000

def OP_STANDBY : Nat := 0b001

def OP_TRANSMIT : Nat := 0b011

def OP_RXCONT : Nat := 0b101

/-- DIO0 mapping values (the `DIO0_MAPPINGS` table of the source). -/
def DIO0_RX_DONE : Nat := 0b00

def DIO0_TX_DONE : Nat := 0b01

/-- The nine-entry ascending bandwidth table (`BANDWIDTHS` in the source). -/
def BANDWIDTHS : List Nat := [7800, 10400, 15600, 20800, 31250, 41700, 62500, 125000, 250000]

/-- Errata correction bytes for register 0x2F (`BW_REG_2F_OFFSETS` in the source). -/
def BW_REG_2F_OFFSETS : List Nat := [0x48, 0x44, 0x44, 0x44, 0x44, 0x44, 0x40, 0x40, 0x40]

/-- Crystal oscillator frequency (`RF95_FXOSC` in the source).
`RF95_FSTEP = RF95_FXOSC / 524288` is kept as an exact rational. -/
def RF95_FXOSC : Nat := 32000000

/-- The `BITMASKS` table of the source: `BITMASKS[i] = 2^(i+1) - 1`. -/
def BITMASKS : List Nat :=
  [0b00000001, 0b00000011, 0b00000111, 0b00001111, 0b00011111, 0b00111111, 0b01111111]

/-- Semantics of `#readBits(address, bits, offset)` applied to the byte read back from
`address`: mask with `BITMASKS[bits-1] << offset` and shift right. -/
def readBits (reg bits offset : Nat) : Nat :=
  let mask := (BITMASKS.getD (bits - 1) 0) <<< offset
  (reg &&& mask) >>> offset

/-- The byte `#writeBits(address, bits, offset, val)` composes from the byte
`old` it read: clear the target bits (`old & ~(mask << offset)`, which for a
byte-valued register equals `old &&& ((mask <<< offset) ^^^ 0xFF)`), then OR
in `(val & mask) << offset`. -/
def writeBitsResult (old bits offset val : Nat) : Nat :=
  let mask := BITMASKS.getD (bits - 1) 0
  let v := val &&& mask
  (old &&& ((mask <<< offset) ^^^ 0xFF)) ||| (v <<< offset)

lemma BITMASKS_getD (bits : Nat) (h1 : 1 ≤ bits) (h7 : bits ≤ 7) :
    BITMASKS.getD (bits - 1) 0 = 2 ^ bits - 1 := by
  interval_cases bits <;> decide

/-- Reading back the field just written returns the written value, for any
prior register content. -/
lemma readBits_writeBitsResult (old bits offset val : Nat)
    (h1 : 1 ≤ bits) (h7 : bits ≤ 7) (h8 : offset + bits ≤ 8) (hv : val < 2 ^ bits) :
    readBits (writeBitsResult old bits offset val) bits offset = val := by
  unfold readBits writeBitsResult
  rw [BITMASKS_getD bits h1 h7]
  have h255 : ∀ j, Nat.testBit 255 j = decide (j < 8) := fun j => by
    rw [show (255 : Nat) = 2 ^ 8 - 1 from rfl, Nat.testBit_two_pow_sub_one]
  apply Nat.eq_of_testBit_eq
  intro i
  by_cases hib : i < bits
  · have h8' : offset + i < 8 := by omega
    simp [Nat.testBit_shiftRight, Nat.testBit_and, Nat.testBit_or, Nat.testBit_xor,
      Nat.testBit_shiftLeft, Nat.testBit_two_pow_sub_one, Nat.add_sub_cancel_left,
      h255, hib, h8']
  · have hvi : val.testBit i = false :=
      Nat.testBit_lt_two_pow (lt_of_lt_of_le hv (Nat.pow_le_pow_right (by omega) (by omega)))
    simp [Nat.testBit_shiftRight, Nat.testBit_and, Nat.testBit_or, Nat.testBit_xor,
      Nat.testBit_shiftLeft, Nat.testBit_two_pow_sub_one, Nat.add_sub_cancel_left,
      hib, hvi]

/-- Writing a different, non-overlapping field leaves a field's read-back
value unchanged. -/
lemma readBits_writeBitsResult_disjoint (old bits offset bits2 offset2 val : Nat)
    (h1 : 1 ≤ bits) (h7 : bits ≤ 7) (h12 : 1 ≤ bits2) (h72 : bits2 ≤ 7)
    (hdisj : offset + bits ≤ offset2 ∨ offset2 + bits2 ≤ offset)
    (h8 : offset + bits ≤ 8) :
    readBits (writeBitsResult old bits2 offset2 val) bits offset = readBits old bits offset := by
  unfold readBits writeBitsResult
  rw [BITMASKS_getD bits h1 h7, BITMASKS_getD bits2 h12 h72]
  have h255 : ∀ j, Nat.testBit 255 j = decide (j < 8) := fun j => by
    rw [show (255 : Nat) = 2 ^ 8 - 1 from rfl, Nat.testBit_two_pow_sub_one]
  apply Nat.eq_of_testBit_eq
  intro i
  by_cases hib : i < bits
  · have h8' : offset + i < 8 := by omega
    by_cases hle : offset2 ≤ offset + i
    · have hb2 : ¬(offset + i - offset2 < bits2) := by omega
      simp [Nat.testBit_shiftRight, Nat.testBit_and, Nat.testBit_or, Nat.testBit_xor,
        Nat.testBit_shiftLeft, Nat.testBit_two_pow_sub_one, h255, hle, hb2, hib, h8']
    · simp [Nat.testBit_shiftRight, Nat.testBit_and, Nat.testBit_or, Nat.testBit_xor,
        Nat.testBit_shiftLeft, Nat.testBit_two_pow_sub_one, h255, hle, hib, h8']
  · simp [Nat.testBit_shiftRight, Nat.testBit_and, Nat.testBit_or, Nat.testBit_xor,
      Nat.testBit_shiftLeft, Nat.testBit_two_pow_sub_one, h255, hib]

/-- The chip's register file, one byte per address. -/
def Regs : Type := Nat → Nat

/-- Store effect of `#writeByte(address, val)`: the chip latches `val & 0xFF`. -/
def writeByteR (rs : Regs) (addr val : Nat) : Regs :=
  fun a => if a = addr then val % 256 else rs a

/-- Store effect of `#writeBits(address, bits, offset, val)`: read the old
byte, compose the new byte, and write it back only when it differs (the
no-op short-circuit of the source). -/
def writeBitsR (rs : Regs) (addr bits offset val : Nat) : Regs :=
  let new := writeBitsResult (rs addr) bits offset val
  if new = rs addr then rs else writeByteR rs addr new

/-- Read of `#readBits(address, bits, offset)` over the store. -/
def readFieldR (rs : Regs) (addr bits offset : Nat) : Nat :=
  readBits (rs addr) bits offset

lemma writeBitsResult_lt (old bits offset val : Nat)
    (h1 : 1 ≤ bits) (h7 : bits ≤ 7) (h8 : offset + bits ≤ 8) :
    writeBitsResult old bits offset val < 256 := by
  unfold writeBitsResult
  rw [BITMASKS_getD bits h1 h7]
  have ha : old &&& (((2 ^ bits - 1) <<< offset) ^^^ 0xFF) < 256 :=
    lt_of_le_of_lt Nat.and_le_right (by
      have := Nat.xor_lt_two_pow (n := 8) (x := (2 ^ bits - 1) <<< offset) (y := 0xFF)
      apply this
      · rw [Nat.shiftLeft_eq]
        calc (2 ^ bits - 1) * 2 ^ offset < 2 ^ bits * 2 ^ offset := by
              have : (0:Nat) < 2 ^ offset := Nat.pos_pow_of_pos _ (by omega)
              have h2b : 2 ^ bits - 1 < 2 ^ bits := by
                have : (0:Nat) < 2 ^ bits := Nat.pos_pow_of_pos _ (by omega)
                omega
              exact (Nat.mul_lt_mul_right this).mpr h2b
          _ = 2 ^ (bits + offset) := by rw [← Nat.pow_add]
          _ ≤ 2 ^ 8 := Nat.pow_le_pow_right (by omega) (by omega)
      · decide)
  have hb : (val &&& (2 ^ bits - 1)) <<< offset < 256 := by
    rw [Nat.shiftLeft_eq]
    calc (val &&& (2 ^ bits - 1)) * 2 ^ offset
        ≤ (2 ^ bits - 1) * 2 ^ offset := Nat.mul_le_mul_right _ Nat.and_le_right
      _ < 2 ^ bits * 2 ^ offset := by
          have : (0:Nat) < 2 ^ offset := Nat.pos_pow_of_pos _ (by omega)
          have h2b : 2 ^ bits - 1 < 2 ^ bits := by
            have : (0:Nat) < 2 ^ bits := Nat.pos_pow_of_pos _ (by omega)
            omega
          exact (Nat.mul_lt_mul_right this).mpr h2b
      _ = 2 ^ (bits + offset) := by rw [← Nat.pow_add]
      _ ≤ 2 ^ 8 := Nat.pow_le_pow_right (by omega) (by omega)
  exact Nat.or_lt_two_pow (n := 8) ha hb

lemma writeBitsR_self (rs : Regs) (addr bits offset val : Nat)
    (h1 : 1 ≤ bits) (h7 : bits ≤ 7) (h8 : offset + bits ≤ 8) :
    (writeBitsR rs addr bits offset val) addr = writeBitsResult (rs addr) bits offset val := by
  unfold writeBitsR
  by_cases h : writeBitsResult (rs addr) bits offset val = rs addr
  · simp [h]
  · simp only [h, if_false, writeByteR, if_pos rfl]
    exact Nat.mod_eq_of_lt (writeBitsResult_lt _ _ _ _ h1 h7 h8)

lemma writeBitsR_other (rs : Regs) (addr bits offset val a : Nat) (ha : a ≠ addr) :
    (writeBitsR rs addr bits offset val) a = rs a := by
  unfold writeBitsR writeByteR
  by_cases h : writeBitsResult (rs addr) bits offset val = rs addr <;> simp [h, ha]

lemma writeByteR_self (rs : Regs) (addr val : Nat) :
    (writeByteR rs addr val) addr = val % 256 := by
  simp [writeByteR]

lemma writeByteR_other (rs : Regs) (addr val a : Nat) (ha : a ≠ addr) :
    (writeByteR rs addr val) a = rs a := by
  simp [writeByteR, ha]

/-- One bus transaction, as framed by the register-bus adapter. -/
inductive BusOp where
  | read (addr : Nat)
  | write (addr val : Nat)
  | readBuf (addr len : Nat)
  | writeBuf (addr : Nat) (bytes : List Nat)
  deriving DecidableEq, Repr

/-- Number of bus write transactions in a trace. -/
def numBusWrites (ops : List BusOp) : Nat :=
  (ops.filter fun op => match op with
    | .write _ _ => true
    | .writeBuf _ _ => true
    | _ => false).length

/-- Number of bus read transactions in a trace. -/
def numBusReads (ops : List BusOp) : Nat :=
  (ops.filter fun op => match op with
    | .read _ => true
    | .readBuf _ _ => true
    | _ => false).length

/-- Bus trace of `#writeBits(address, bits, offset, val)`: one `#readByte`,
then `#writeByte` of the composed byte only when it differs from the byte
read. -/
def writeFieldOps (rs : Regs) (addr bits offset val : Nat) : List BusOp :=
  let old := rs addr
  let new := writeBitsResult old bits offset val
  if new = old then [BusOp.read addr]
  else [BusOp.read addr, BusOp.write addr (new % 256)]

/-- Round-half-up of the nonnegative rational `p / q` (what `Math.round`
computes on a nonnegative argument), as exact integer arithmetic. -/
def jsRoundDiv (p q : Nat) : Nat := (2 * p + q) / (2 * q)

/-- The `bandwidthId` selection loop of `#setFrequencyAndBandwidth`: the first
index whose table entry is ≥ the requested bandwidth, or the table length
when none qualifies. -/
def selectBandwidthIndex (bandwidthHz : Nat) : Nat :=
  BANDWIDTHS.findIdx fun b => decide (bandwidthHz ≤ b)

/-- The `frequencyHz` value of `#setFrequencyAndBandwidth`: the target
frequency in Hz, incremented by the bandwidth when the bandwidth is below
62500 Hz (Semtech SX1276 errata note 2.3). -/
def adjustedFrequencyHz (frequencyMhz bandwidthHz : Nat) : Nat :=
  frequencyMhz * 1000000 + (if bandwidthHz < 62500 then bandwidthHz else 0)

/-- The `frf` value of `#setFrequencyAndBandwidth`: the offset-adjusted
frequency in Hz divided by `RF95_FSTEP = RF95_FXOSC / 2^19` (computed here
as the exact rational `frequencyHz * 2^19 / RF95_FXOSC`), rounded, and
masked to 24 bits. -/
def frfValue (frequencyMhz bandwidthHz : Nat) : Nat :=
  jsRoundDiv (adjustedFrequencyHz frequencyMhz bandwidthHz * 524288) RF95_FXOSC % 2 ^ 24

/-- Store effect of `#setFrequencyAndBandwidth(frequencyMhz, bandwidthHz)`. -/
def setFrequencyAndBandwidthR (rs : Regs) (frequencyMhz bandwidthHz : Nat) : Regs :=
  let frf := frfValue frequencyMhz bandwidthHz
  let r1 := writeByteR rs REG_FRF_MSB (frf >>> 16)
  let r2 := writeByteR r1 REG_FRF_MID ((frf >>> 8) &&& 0xFF)
  let r3 := writeByteR r2 REG_FRF_LSB (frf &&& 0xFF)
  let bandwidthId := selectBandwidthIndex bandwidthHz
  let r4 := writeBitsR r3 REG_MODEM_CONFIG_1 4 4 bandwidthId
  let r5 :=
    if bandwidthId < BANDWIDTHS.length then
      writeByteR (writeByteR (writeBitsR r4 0x31 1 7 0) 0x2F (BW_REG_2F_OFFSETS.getD bandwidthId 0)) 0x30 0
    else
      writeBitsR r4 0x31 1 7 1
  if bandwidthId = BANDWIDTHS.length then
    if frequencyMhz ≥ 862 then writeByteR (writeByteR r5 0x36 0x02) 0x3A 0x64
    else if frequencyMhz ≤ 525 then writeByteR (writeByteR r5 0x36 0x02) 0x3A 0x7F
    else r5
  else
    writeByteR r5 0x36 0x03

/-- Notification emitted by the `dio0` rising-edge handler installed by
`startReceive`. -/
inductive RxEvent where
  | receiveError
  | receive (payload : List Nat) (rssiDb : Int) (snrDb : ℚ)
  deriving DecidableEq, Repr

/-- The SNR expression of the receive handler:
`(snr > 127 ? (256 - snr) * -1 : snr) / 4`. -/
def snrFromByte (snr : Nat) : ℚ :=
  ((if 127 < snr then ((256 : ℤ) - snr) * (-1) else (snr : ℤ) : ℤ) : ℚ) / 4

/-- The rising-edge receive handler of `startReceive` (the `value === 1`
branch), as a function of the register file and the FIFO contents, returning
the emitted event together with the bus trace it performs. -/
def rxHandler (rs : Regs) (fifo : List Nat) : RxEvent × List BusOp :=
  let flags := readFieldR rs REG_IRQ_FLAGS 3 4
  if flags ≠ 0b0101 then
    (.receiveError, [.read REG_IRQ_FLAGS, .write REG_IRQ_FLAGS 0xFF])
  else
    let numBytes := rs REG_RX_NB_BYTES
    let payload := fifo.take numBytes
    (.receive payload (-137 + (rs REG_PKT_RSSI_VALUE : Int)) (snrFromByte (rs REG_PKT_SNR_VALUE)),
     [.read REG_IRQ_FLAGS, .write REG_IRQ_FLAGS 0xFF, .read REG_RX_NB_BYTES,
      .write REG_FIFO_ADDR_PTR 0, .readBuf REG_FIFO numBytes,
      .read REG_PKT_SNR_VALUE, .read REG_PKT_RSSI_VALUE])

/-- Failure values thrown by the driver. -/
inductive Err where
  | rangeError (msg : String)
  | deviceNotFound
  | unsupportedVersion
  | readbackMismatch
  deriving DecidableEq, Repr

/-- Store effect of `#setTxPower(txPowerDb)`: validate `[5, 23]`, program the
PA DAC (`0x87` with an internal 3 dB reduction above 20 dB, `0x84`
otherwise), set the PA_BOOST bit, and program the 4-bit output-power field
with `txPowerDb - 5`. -/
def setTxPowerR (rs : Regs) (txPowerDb : Int) : Except Err Regs :=
  if txPowerDb < 5 ∨ 23 < txPowerDb then .error (.rangeError "Invalid TX power value")
  else
    let p := if 20 < txPowerDb then txPowerDb - 3 else txPowerDb
    let r1 :=
      if 20 < txPowerDb then writeByteR rs REG_PA_DAC 0x87
      else writeByteR rs REG_PA_DAC 0x84
    let r2 := writeBitsR r1 REG_PA_CONFIG 1 7 1
    .ok (writeBitsR r2 REG_PA_CONFIG 4 0 (p - 5).toNat)

/-- Store effect of `#setPreambleLength`. -/
def setPreambleLengthR (rs : Regs) (preambleLength : Nat) : Regs :=
  writeByteR (writeByteR rs REG_PREAMBLE_MSB ((preambleLength >>> 8) &&& 0xFF))
    REG_PREAMBLE_LSB (preambleLength &&& 0xFF)

/-- Store effect of `#setSpreadingFactor`. -/
def setSpreadingFactorR (rs : Regs) (spreadingFactor : Nat) : Except Err Regs :=
  if spreadingFactor < 6 ∨ 12 < spreadingFactor then
    .error (.rangeError "Invalid spreading factor")
  else
    let r1 := writeBitsR rs REG_MODEM_CONFIG_2 4 4 spreadingFactor
    if spreadingFactor = 6 then .ok (writeByteR (writeBitsR r1 0x31 3 0 0b101) 0x37 0x0C)
    else .ok r1

/-- Store effect of `#setCodingRate`. -/
def setCodingRateR (rs : Regs) (codingRate : Nat) : Except Err Regs :=
  if codingRate < 5 ∨ 8 < codingRate then .error (.rangeError "Invalid coding rate")
  else .ok (writeBitsR rs REG_MODEM_CONFIG_1 3 1 (codingRate - 4))

/-- Store effect of `#setRxCrc`. -/
def setRxCrcR (rs : Regs) (enableCrc : Bool) : Regs :=
  writeBitsR rs REG_MODEM_CONFIG_2 1 2 (if enableCrc then 1 else 0)

/-- Store effect of `#setAgc`. -/
def setAgcR (rs : Regs) (enableAgc : Bool) : Regs :=
  writeBitsR rs REG_MODEM_CONFIG_3 1 2 (if enableAgc then 1 else 0)

/-- The radio parameters of `defaultOptions` that drive register writes. -/
structure Options where
  frequencyMhz : Nat
  preambleLength : Nat
  bandwidthHz : Nat
  codingRate : Nat
  spreadingFactor : Nat
  enableCrcChecking : Bool
  enableAgc : Bool
  txPowerDb : Int

/-- The `defaultOptions` of the source (radio parameters only). -/
def defaultOptions : Options :=
  { frequencyMhz := 915, preambleLength := 8, bandwidthHz := 500000, codingRate := 5,
    spreadingFactor := 7, enableCrcChecking := false, enableAgc := false, txPowerDb := 23 }

/-- The `init(options)` sequence over the register file (the reset pulse and
GPIO/SPI setup act only on collaborator devices, not on the register file):
version check, sleep + LoRa latch, readback sanity check, optional
low-frequency-mode clear, FIFO base addresses, standby, then the parameter
writes in source order. -/
def init (options : Options) (rs : Regs) : Except Err Regs :=
  let version := rs REG_VERSION
  if version = 0 then .error .deviceNotFound
  else if version ≠ 0x12 then .error .unsupportedVersion
  else
    let r1 := writeBitsR rs REG_OP_MODE 3 0 OP_SLEEP
    let r2 := writeBitsR r1 REG_OP_MODE 1 7 1
    if readFieldR r2 REG_OP_MODE 3 0 ≠ OP_SLEEP ∨ ¬(readFieldR r2 REG_OP_MODE 1 7 = 1) then
      .error .readbackMismatch
    else
      let r3 := if 525 < options.frequencyMhz then writeBitsR r2 REG_OP_MODE 1 3 0 else r2
      let r4 := writeByteR r3 REG_FIFO_TX_BASE_ADDR 0
      let r5 := writeByteR r4 REG_FIFO_RX_BASE_ADDR 0
      let r6 := writeBitsR r5 REG_OP_MODE 3 0 OP_STANDBY
      let r7 := setPreambleLengthR r6 options.preambleLength
      let r8 := setFrequencyAndBandwidthR r7 options.frequencyMhz options.bandwidthHz
      do
        let r9 ← setSpreadingFactorR r8 options.spreadingFactor
        let r10 ← setCodingRateR r9 options.codingRate
        let r11 := setRxCrcR r10 options.enableCrcChecking
        let r12 := setAgcR r11 options.enableAgc
        setTxPowerR r12 options.txPowerDb

/-- JavaScript values that can reach `send(payload)`. -/
inductive JSValue where
  | buffer (bytes : List Nat)
  | jsString (chars : List Nat)
  | jsBool (b : Bool)
  | other (truthy : Bool)
  deriving DecidableEq, Repr

/-- JavaScript truthiness. -/
def jsTruthy : JSValue → Bool
  | .buffer _ => true
  | .jsString s => !s.isEmpty
  | .jsBool b => b
  | .other t => t

/-- Evaluation of `v instanceof Buffer`. -/
def instanceofBuffer : JSValue → Bool
  | .buffer _ => true
  | _ => false

/-- The guard `!payload instanceof Buffer` as JavaScript parses it:
`(!payload) instanceof Buffer`.  `!payload` is a boolean primitive, which is
never an instance of `Buffer`. -/
def sendTypeGuard (payload : JSValue) : Bool :=
  instanceofBuffer (.jsBool (!jsTruthy payload))

/-- Evaluation of `payload.length`: defined for buffers and strings, `undefined`
otherwise. -/
def jsLength : JSValue → Option Nat
  | .buffer bytes => some bytes.length
  | .jsString s => some s.length
  | _ => none

/-- Evaluation of `x < n` in JavaScript when `x` may be `undefined` (then the comparison
is false). -/
def jsLtNat (x : Option Nat) (n : Nat) : Bool :=
  match x with
  | none => false
  | some v => v < n

/-- Evaluation of `x > n` in JavaScript when `x` may be `undefined` (then the comparison
is false). -/
def jsGtNat (x : Option Nat) (n : Nat) : Bool :=
  match x with
  | none => false
  | some v => n < v

/-- The bytes written to the FIFO for a payload value. -/
def sendBytes : JSValue → List Nat
  | .buffer bytes => bytes
  | .jsString s => s
  | _ => []

/-- Outcome of `send(payload)` up to entering Transmit mode. -/
inductive SendOutcome where
  | typeError
  | emptyPayloadError
  | payloadTooLongError
  | started (ops : List BusOp)
  deriving DecidableEq, Repr

/-- Bus trace of `send` after validation: `stopReceive` (standby mode
write), FIFO pointer reset, payload write, payload length, DIO0 mapping to
TX_DONE, then the Transmit mode write. -/
def sendOps (rs : Regs) (payload : JSValue) : List BusOp :=
  let ops1 := writeFieldOps rs REG_OP_MODE 3 0 OP_STANDBY
  let r1 := writeBitsR rs REG_OP_MODE 3 0 OP_STANDBY
  let len := (jsLength payload).getD 0
  let r2 := writeBitsR r1 REG_DIO_MAPPING_1 2 6 DIO0_TX_DONE
  ops1 ++
    [.write REG_FIFO_ADDR_PTR 0, .writeBuf REG_FIFO (sendBytes payload),
     .write REG_PAYLOAD_LENGTH (len % 256)] ++
    writeFieldOps r1 REG_DIO_MAPPING_1 2 6 DIO0_TX_DONE ++
    writeFieldOps r2 REG_OP_MODE 3 0 OP_TRANSMIT

/-- Model of `send(payload)`: the broken `Buffer` type guard, the two length
validations (against hardware access), then the bus activity. -/
def send (rs : Regs) (payload : JSValue) : SendOutcome :=
  if sendTypeGuard payload then .typeError
  else if jsLtNat (jsLength payload) 1 then .emptyPayloadError
  else if jsGtNat (jsLength payload) 255 then .payloadTooLongError
  else .started (sendOps rs payload)

/-- Bus operations actually performed for a `send` outcome: a validation
failure is thrown before any bus transaction. -/
def sendOpsOf : SendOutcome → List BusOp
  | .started ops => ops
  | _ => []

/-- C7: for every width in [1,7], every offset with offset+width ≤ 8, every
address, and every value representable in width bits, a `writeField`
followed by a `readField` with the same address, width and offset returns
the written value, over the register byte store updated by the write. -/
theorem C7_writeField_readField_roundtrip (rs : Regs) (addr bits offset val : Nat)
    (h1 : 1 ≤ bits) (h7 : bits ≤ 7) (h8 : offset + bits ≤ 8) (hv : val < 2 ^ bits) :
    readFieldR (writeBitsR rs addr bits offset val) addr bits offset = val := by
  unfold readFieldR
  rw [writeBitsR_self rs addr bits offset val h1 h7 h8]
  exact readBits_writeBitsResult _ _ _ _ h1 h7 h8 hv

theorem C7_writeField_readField_roundtrip_witness :
    readFieldR (writeBitsR (fun _ => 0) 9 3 4 5) 9 3 4 = 5 :=
  C7_writeField_readField_roundtrip (fun _ => 0) 9 3 4 5 (by decide) (by decide) (by decide)
    (by decide)

/-- C6: `writeField` issues exactly one bus read; when the read-modify-write
composition (clear target bits, OR in `(value & mask) << offset`) equals the
byte read it issues no bus write, and otherwise it issues exactly one bus
write of the composed byte. -/
theorem C6_writeField_write_only_on_change (rs : Regs) (addr bits offset val : Nat)
    (h1 : 1 ≤ bits) (h7 : bits ≤ 7) (h8 : offset + bits ≤ 8) :
    (writeBitsResult (rs addr) bits offset val = rs addr →
      writeFieldOps rs addr bits offset val = [BusOp.read addr] ∧
      numBusReads (writeFieldOps rs addr bits offset val) = 1 ∧
      numBusWrites (writeFieldOps rs addr bits offset val) = 0) ∧
    (writeBitsResult (rs addr) bits offset val ≠ rs addr →
      writeFieldOps rs addr bits offset val =
        [BusOp.read addr,
         BusOp.write addr
           ((rs addr &&& (((2 ^ bits - 1) <<< offset) ^^^ 0xFF)) |||
             ((val &&& (2 ^ bits - 1)) <<< offset))] ∧
      numBusReads (writeFieldOps rs addr bits offset val) = 1 ∧
      numBusWrites (writeFieldOps rs addr bits offset val) = 1) := by
  have hlt := writeBitsResult_lt (rs addr) bits offset val h1 h7 h8
  have hmask := BITMASKS_getD bits h1 h7
  constructor
  · intro heq
    simp [writeFieldOps, heq, numBusReads, numBusWrites]
  · intro hne
    have hops : writeFieldOps rs addr bits offset val =
        [BusOp.read addr, BusOp.write addr (writeBitsResult (rs addr) bits offset val)] := by
      simp [writeFieldOps, hne, Nat.mod_eq_of_lt hlt]
    rw [hops]
    refine ⟨?_, by simp [numBusReads], by simp [numBusWrites]⟩
    unfold writeBitsResult
    rw [hmask]

theorem C6_writeField_write_only_on_change_witness :
    writeFieldOps (fun _ => 0) 1 3 4 0 = [BusOp.read 1] ∧
    writeFieldOps (fun _ => 0) 1 3 4 5 = [BusOp.read 1, BusOp.write 1 80] := by
  constructor
  · exact ((C6_writeField_write_only_on_change (fun _ => 0) 1 3 4 0 (by decide) (by decide)
      (by decide)).1 (by decide)).1
  · exact (((C6_writeField_write_only_on_change (fun _ => 0) 1 3 4 5 (by decide) (by decide)
      (by decide)).2 (by decide)).1).trans (by decide)

/-- C5: for every entry of the nine-entry bandwidth table, the selected
bandwidth index is exactly that entry's position, and for every request
strictly above 250000 Hz the index is the sentinel 9 (the table length). -/
theorem C5_bandwidth_index_exact :
    (∀ i, i < BANDWIDTHS.length → selectBandwidthIndex (BANDWIDTHS.getD i 0) = i) ∧
    (∀ bandwidthHz, 250000 < bandwidthHz →
      selectBandwidthIndex bandwidthHz = BANDWIDTHS.length) := by
  constructor
  · intro i h
    have h9 : i < 9 := by simpa [BANDWIDTHS] using h
    interval_cases i <;> decide
  · intro bw h
    have e1 : decide (bw ≤ 7800) = false := by simp only [decide_eq_false_iff_not]; omega
    have e2 : decide (bw ≤ 10400) = false := by simp only [decide_eq_false_iff_not]; omega
    have e3 : decide (bw ≤ 15600) = false := by simp only [decide_eq_false_iff_not]; omega
    have e4 : decide (bw ≤ 20800) = false := by simp only [decide_eq_false_iff_not]; omega
    have e5 : decide (bw ≤ 31250) = false := by simp only [decide_eq_false_iff_not]; omega
    have e6 : decide (bw ≤ 41700) = false := by simp only [decide_eq_false_iff_not]; omega
    have e7 : decide (bw ≤ 62500) = false := by simp only [decide_eq_false_iff_not]; omega
    have e8 : decide (bw ≤ 125000) = false := by simp only [decide_eq_false_iff_not]; omega
    have e9 : decide (bw ≤ 250000) = false := by simp only [decide_eq_false_iff_not]; omega
    simp [selectBandwidthIndex, BANDWIDTHS, List.findIdx_cons, e1, e2, e3, e4, e5, e6, e7, e8, e9]

theorem C5_bandwidth_index_exact_witness :
    selectBandwidthIndex (BANDWIDTHS.getD 6 0) = 6 ∧ selectBandwidthIndex 300000 = 9 :=
  ⟨C5_bandwidth_index_exact.1 6 (by decide),
   (C5_bandwidth_index_exact.2 300000 (by decide)).trans (by decide)⟩

/-- C4: `#setTxPower` rejects every value outside [5,23]; above 20 dB it
programs PA DAC byte 0x87 and output-power field `(value − 3) − 5`; in
[5,20] it programs DAC byte 0x84 and field `value − 5`. -/
theorem C4_setTxPower_paths (rs : Regs) (v : Int) :
    ((v < 5 ∨ 23 < v) → setTxPowerR rs v = .error (.rangeError "Invalid TX power value")) ∧
    (20 < v → v ≤ 23 → ∃ r', setTxPowerR rs v = .ok r' ∧
      r' REG_PA_DAC = 0x87 ∧ readFieldR r' REG_PA_CONFIG 4 0 = (v - 3 - 5).toNat) ∧
    (5 ≤ v → v ≤ 20 → ∃ r', setTxPowerR rs v = .ok r' ∧
      r' REG_PA_DAC = 0x84 ∧ readFieldR r' REG_PA_CONFIG 4 0 = (v - 5).toNat) := by
  refine ⟨fun hout => by simp [setTxPowerR, hout], fun h20 h23 => ?_, fun h5 h20 => ?_⟩
  · have hin : ¬(v < 5 ∨ 23 < v) := by omega
    refine ⟨writeBitsR (writeBitsR (writeByteR rs REG_PA_DAC 0x87) REG_PA_CONFIG 1 7 1)
        REG_PA_CONFIG 4 0 (v - 3 - 5).toNat, ?_, ?_, ?_⟩
    · simp [setTxPowerR, hin, h20]
    · rw [writeBitsR_other _ _ _ _ _ _ (by decide), writeBitsR_other _ _ _ _ _ _ (by decide),
        writeByteR_self]
    · unfold readFieldR
      rw [writeBitsR_self _ _ _ _ _ (by decide) (by decide) (by decide)]
      exact readBits_writeBitsResult _ _ _ _ (by decide) (by decide) (by decide) (by omega)
  · have hin : ¬(v < 5 ∨ 23 < v) := by omega
    have h20' : ¬(20 < v) := by omega
    refine ⟨writeBitsR (writeBitsR (writeByteR rs REG_PA_DAC 0x84) REG_PA_CONFIG 1 7 1)
        REG_PA_CONFIG 4 0 (v - 5).toNat, ?_, ?_, ?_⟩
    · simp [setTxPowerR, hin, h20']
    · rw [writeBitsR_other _ _ _ _ _ _ (by decide), writeBitsR_other _ _ _ _ _ _ (by decide),
        writeByteR_self]
    · unfold readFieldR
      rw [writeBitsR_self _ _ _ _ _ (by decide) (by decide) (by decide)]
      exact readBits_writeBitsResult _ _ _ _ (by decide) (by decide) (by decide) (by omega)

theorem C4_setTxPower_paths_witness :
    (∃ r', setTxPowerR (fun _ => 0) 23 = .ok r' ∧
      r' REG_PA_DAC = 0x87 ∧ readFieldR r' REG_PA_CONFIG 4 0 = 15) ∧
    (∃ r', setTxPowerR (fun _ => 0) 18 = .ok r' ∧
      r' REG_PA_DAC = 0x84 ∧ readFieldR r' REG_PA_CONFIG 4 0 = 13) ∧
    setTxPowerR (fun _ => 0) 24 = .error (.rangeError "Invalid TX power value") := by
  refine ⟨?_, ?_, (C4_setTxPower_paths (fun _ => 0) 24).1 (by omega)⟩
  · obtain ⟨r', h1, h2, h3⟩ := (C4_setTxPower_paths (fun _ => 0) 23).2.1 (by omega) (by omega)
    exact ⟨r', h1, h2, h3.trans (by decide)⟩
  · obtain ⟨r', h1, h2, h3⟩ := (C4_setTxPower_paths (fun _ => 0) 18).2.2 (by omega) (by omega)
    exact ⟨r', h1, h2, h3.trans (by decide)⟩

/-- C8: `send` with a payload of length 0 fails with the empty-payload
validation error and with length > 255 fails with the too-long validation
error, in both cases before any bus activity (zero transport calls). -/
theorem C8_send_validation_before_bus (rs : Regs) (bytes : List Nat) :
    (bytes.length = 0 → send rs (.buffer bytes) = .emptyPayloadError ∧
      sendOpsOf (send rs (.buffer bytes)) = []) ∧
    (255 < bytes.length → send rs (.buffer bytes) = .payloadTooLongError ∧
      sendOpsOf (send rs (.buffer bytes)) = []) := by
  constructor
  · intro h0
    have : send rs (.buffer bytes) = .emptyPayloadError := by
      simp [send, sendTypeGuard, instanceofBuffer, jsLength, jsLtNat, h0]
    exact ⟨this, by rw [this]; rfl⟩
  · intro hlong
    have hge : ¬(bytes.length < 1) := by omega
    have : send rs (.buffer bytes) = .payloadTooLongError := by
      simp [send, sendTypeGuard, instanceofBuffer, jsLength, jsLtNat, jsGtNat, hge, hlong]
    exact ⟨this, by rw [this]; rfl⟩

theorem C8_send_validation_before_bus_witness :
    send (fun _ => 0) (.buffer []) = .emptyPayloadError ∧
    sendOpsOf (send (fun _ => 0) (.buffer (List.replicate 256 0))) = [] :=
  ⟨((C8_send_validation_before_bus (fun _ => 0) []).1 (by decide)).1,
   ((C8_send_validation_before_bus (fun _ => 0) (List.replicate 256 0)).2
     (by rw [List.length_replicate]; omega)).2⟩

/-- C10: the `Buffer` type guard in `send` is unreachable — the guard parses
as `(!payload) instanceof Buffer`, which is false for every input, so `send`
never produces the TypeError, and a non-Buffer value with a length in
[1,255] proceeds to the bus-access phase. -/
theorem C10_type_guard_unreachable (rs : Regs) (v : JSValue) :
    sendTypeGuard v = false ∧ send rs v ≠ .typeError ∧
    (∀ n, jsLength v = some n → 1 ≤ n → n ≤ 255 →
      send rs v = .started (sendOps rs v)) := by
  refine ⟨rfl, ?_, ?_⟩
  · unfold send
    rw [show sendTypeGuard v = false from rfl]
    simp only [Bool.false_eq_true, if_false]
    split
    · simp
    · split <;> simp
  · intro n hlen h1 h255
    have hlt : jsLtNat (jsLength v) 1 = false := by simp [jsLtNat, hlen]; omega
    have hgt : jsGtNat (jsLength v) 255 = false := by simp [jsGtNat, hlen]; omega
    simp [send, hlt, hgt, show sendTypeGuard v = false from rfl]

theorem C10_type_guard_unreachable_witness :
    send (fun _ => 0) (.jsString [65]) = .started (sendOps (fun _ => 0) (.jsString [65])) :=
  (C10_type_guard_unreachable (fun _ => 0) (.jsString [65])).2.2 1 rfl (by decide) (by decide)

/-- A byte interpreted as a signed 8-bit two's-complement integer
(specification-side reading used to compare against the handler's SNR
expression). -/
def toSigned8 (s : Nat) : ℤ := if s < 128 then (s : ℤ) else (s : ℤ) - 256

lemma snrFromByte_eq_toSigned8 (s : Nat) :
    snrFromByte s = ((toSigned8 s : ℤ) : ℚ) / 4 := by
  unfold snrFromByte toSigned8
  by_cases h : 127 < s
  · rw [if_pos h, if_neg (by omega)]
    push_cast
    ring
  · rw [if_neg h, if_pos (by omega)]

/-- C9: after a valid packet (flag pattern matches), the emitted receive
notification carries `rssiDb` = RSSI register byte − 137 and `snrDb` = SNR
register byte read as signed 8-bit two's complement, divided by 4. -/
theorem C9_receive_rssi_snr (rs : Regs) (fifo : List Nat)
    (hflags : readFieldR rs REG_IRQ_FLAGS 3 4 = 0b0101) :
    (rxHandler rs fifo).1 =
      .receive (fifo.take (rs REG_RX_NB_BYTES))
        ((rs REG_PKT_RSSI_VALUE : Int) - 137)
        (((toSigned8 (rs REG_PKT_SNR_VALUE) : ℤ) : ℚ) / 4) := by
  have hr : (-137 + (rs REG_PKT_RSSI_VALUE : ℤ)) = (rs REG_PKT_RSSI_VALUE : ℤ) - 137 := by
    omega
  simp [rxHandler, hflags, hr, snrFromByte_eq_toSigned8]

theorem C9_receive_rssi_snr_witness :
    (rxHandler
      (fun a => if a = 0x12 then 0x50 else if a = 0x19 then 200 else if a = 0x1A then 80 else 0)
      []).1 = RxEvent.receive [] (-57) (-14) :=
  (C9_receive_rssi_snr
    (fun a => if a = 0x12 then 0x50 else if a = 0x19 then 200 else if a = 0x1A then 80 else 0)
    [] (by decide)).trans (by
      norm_num [REG_RX_NB_BYTES, REG_PKT_RSSI_VALUE, REG_PKT_SNR_VALUE, toSigned8])

/-- C2 (amended): on each rising edge the handler reads and clears the IRQ
flags; whenever the 3-bit flag pattern at bits 4–6 of the IRQ flags register
does not equal the valid-packet pattern 0b101, it emits a receiveError
notification and performs no further register access; whenever the pattern
equals 0b101 it emits a receive notification instead. -/
theorem C2_rx_flag_dispatch (rs : Regs) (fifo : List Nat) :
    (readFieldR rs REG_IRQ_FLAGS 3 4 ≠ 0b101 →
      rxHandler rs fifo =
        (.receiveError, [BusOp.read REG_IRQ_FLAGS, BusOp.write REG_IRQ_FLAGS 0xFF])) ∧
    (readFieldR rs REG_IRQ_FLAGS 3 4 = 0b101 →
      ∃ p r s, (rxHandler rs fifo).1 = RxEvent.receive p r s) := by
  constructor
  · intro h
    simp [rxHandler, h]
  · intro h
    exact ⟨fifo.take (rs REG_RX_NB_BYTES), -137 + (rs REG_PKT_RSSI_VALUE : ℤ),
      snrFromByte (rs REG_PKT_SNR_VALUE), by simp [rxHandler, h]⟩

theorem C2_rx_flag_dispatch_witness :
    rxHandler (fun _ => 0) [] =
      (.receiveError, [BusOp.read REG_IRQ_FLAGS, BusOp.write REG_IRQ_FLAGS 0xFF]) ∧
    ∃ p r s,
      (rxHandler (fun a => if a = 0x12 then 0x50 else 0) []).1 = RxEvent.receive p r s :=
  ⟨(C2_rx_flag_dispatch (fun _ => 0) []).1 (by decide),
   (C2_rx_flag_dispatch (fun a => if a = 0x12 then 0x50 else 0) []).2 (by decide)⟩

/-- C2 counterexample: with IRQ flags byte 0b11010000 the 4-bit pattern at
bits 4–7 is 0b1101 ≠ 0b0101, yet the handler emits a receive notification
(not receiveError) and performs further register accesses, because the code
reads only the 3-bit field at offset 4 and compares it against 0b101. -/
theorem C2_counterexample :
    readBits ((fun a => if a = 0x12 then 0b11010000 else 0) REG_IRQ_FLAGS) 4 4 = 0b1101 ∧
    (0b1101 : Nat) ≠ 0b0101 ∧
    (rxHandler (fun a => if a = 0x12 then 0b11010000 else 0) []).1 ≠ RxEvent.receiveError ∧
    (rxHandler (fun a => if a = 0x12 then 0b11010000 else 0) []).2 ≠
      [BusOp.read REG_IRQ_FLAGS, BusOp.write REG_IRQ_FLAGS 0xFF] := by
  refine ⟨by decide, by decide, ?_, by decide⟩
  decide

lemma frfValue_lt (f bw : Nat) : frfValue f bw < 2 ^ 24 :=
  Nat.mod_lt _ (by norm_num)

/-- The three FRF bytes written by `#setFrequencyAndBandwidth`, read back
from the store. -/
lemma setFrequencyAndBandwidthR_frf_bytes (rs : Regs) (f bw : Nat) :
    (setFrequencyAndBandwidthR rs f bw) REG_FRF_MSB = frfValue f bw >>> 16 ∧
    (setFrequencyAndBandwidthR rs f bw) REG_FRF_MID = (frfValue f bw >>> 8) &&& 0xFF ∧
    (setFrequencyAndBandwidthR rs f bw) REG_FRF_LSB = frfValue f bw &&& 0xFF := by
  have hlt : frfValue f bw < 2 ^ 24 := frfValue_lt f bw
  have hmsb : frfValue f bw >>> 16 % 256 = frfValue f bw >>> 16 := by
    rw [Nat.shiftRight_eq_div_pow]
    omega
  have hmid : (frfValue f bw >>> 8) &&& 0xFF < 256 := by
    have h := Nat.and_pow_two_sub_one_eq_mod (frfValue f bw >>> 8) 8
    norm_num at h
    omega
  have hlsb : frfValue f bw &&& 0xFF < 256 := by
    have h := Nat.and_pow_two_sub_one_eq_mod (frfValue f bw) 8
    norm_num at h
    omega
  unfold setFrequencyAndBandwidthR
  refine ⟨?_, ?_, ?_⟩ <;>
    · split_ifs <;>
        simp [writeByteR_other, writeBitsR_other, writeByteR_self,
          REG_FRF_MSB, REG_FRF_MID, REG_FRF_LSB, REG_MODEM_CONFIG_1,
          Nat.mod_eq_of_lt hmid, Nat.mod_eq_of_lt hlsb, hmsb]

/-- C1 (amended): the three frequency bytes written by
`#setFrequencyAndBandwidth` decode to `round(frequencyHz / fStep)` masked to
24 bits, where `fStep = RF95_FXOSC / 2^19 = 15625/256` and `frequencyHz` is
the (bandwidth-offset-adjusted) requested frequency; and whenever that
rounded value fits in 24 bits (so the mask does not truncate), the decoded
value times `fStep` reproduces the adjusted frequency within one `fStep`:
`|decoded · 15625 − frequencyHz · 256| ≤ 15625`. -/
theorem C1_frequency_register_roundtrip (frequencyMhz bandwidthHz : Nat) (rs : Regs) :
    ((setFrequencyAndBandwidthR rs frequencyMhz bandwidthHz) REG_FRF_MSB * 65536 +
      (setFrequencyAndBandwidthR rs frequencyMhz bandwidthHz) REG_FRF_MID * 256 +
      (setFrequencyAndBandwidthR rs frequencyMhz bandwidthHz) REG_FRF_LSB =
      jsRoundDiv (adjustedFrequencyHz frequencyMhz bandwidthHz * 524288) RF95_FXOSC
        % 2 ^ 24) ∧
    (jsRoundDiv (adjustedFrequencyHz frequencyMhz bandwidthHz * 524288) RF95_FXOSC < 2 ^ 24 →
      ((((setFrequencyAndBandwidthR rs frequencyMhz bandwidthHz) REG_FRF_MSB * 65536 +
          (setFrequencyAndBandwidthR rs frequencyMhz bandwidthHz) REG_FRF_MID * 256 +
          (setFrequencyAndBandwidthR rs frequencyMhz bandwidthHz) REG_FRF_LSB : Nat) : ℤ)
          * 15625 -
        (adjustedFrequencyHz frequencyMhz bandwidthHz : ℤ) * 256).natAbs ≤ 15625) := by
  obtain ⟨hmsb, hmid, hlsb⟩ := setFrequencyAndBandwidthR_frf_bytes rs frequencyMhz bandwidthHz
  have hlt : frfValue frequencyMhz bandwidthHz < 2 ^ 24 := frfValue_lt frequencyMhz bandwidthHz
  have hand : ∀ x : Nat, x &&& 0xFF = x % 256 := fun x => by
    have h := Nat.and_pow_two_sub_one_eq_mod x 8
    norm_num at h
    exact h
  have hdec : (setFrequencyAndBandwidthR rs frequencyMhz bandwidthHz) REG_FRF_MSB * 65536 +
      (setFrequencyAndBandwidthR rs frequencyMhz bandwidthHz) REG_FRF_MID * 256 +
      (setFrequencyAndBandwidthR rs frequencyMhz bandwidthHz) REG_FRF_LSB =
      frfValue frequencyMhz bandwidthHz := by
    rw [hmsb, hmid, hlsb, hand, hand, Nat.shiftRight_eq_div_pow, Nat.shiftRight_eq_div_pow]
    omega
  have hfv : frfValue frequencyMhz bandwidthHz =
      jsRoundDiv (adjustedFrequencyHz frequencyMhz bandwidthHz * 524288) RF95_FXOSC
        % 2 ^ 24 := rfl
  refine ⟨hdec.trans hfv, fun hfit => ?_⟩
  have hF : jsRoundDiv (adjustedFrequencyHz frequencyMhz bandwidthHz * 524288) RF95_FXOSC =
      (2 * (adjustedFrequencyHz frequencyMhz bandwidthHz * 524288) + 32000000)
        / (2 * 32000000) := rfl
  rw [hdec, hfv, Nat.mod_eq_of_lt hfit, hF]
  rw [hF] at hfit
  omega

theorem C1_frequency_register_roundtrip_witness :
    ((((setFrequencyAndBandwidthR (fun _ => 0) 915 500000) REG_FRF_MSB * 65536 +
        (setFrequencyAndBandwidthR (fun _ => 0) 915 500000) REG_FRF_MID * 256 +
        (setFrequencyAndBandwidthR (fun _ => 0) 915 500000) REG_FRF_LSB : Nat) : ℤ) * 15625 -
      (adjustedFrequencyHz 915 500000 : ℤ) * 256).natAbs ≤ 15625 :=
  (C1_frequency_register_roundtrip 915 500000 (fun _ => 0)).2 (by decide)

/-- C1 counterexample: at 1100 MHz (bandwidth 500000 Hz, so no errata
offset) the rounded register value 18022400 exceeds 2^24, the mask wraps it
to 1245184, and the decoded frequency is about 76 MHz — not within one
`fStep` of the requested 1100 MHz.  The unrestricted round-trip claim is
therefore false. -/
theorem C1_roundtrip_counterexample :
    15625 <
      ((((setFrequencyAndBandwidthR (fun _ => 0) 1100 500000) REG_FRF_MSB * 65536 +
          (setFrequencyAndBandwidthR (fun _ => 0) 1100 500000) REG_FRF_MID * 256 +
          (setFrequencyAndBandwidthR (fun _ => 0) 1100 500000) REG_FRF_LSB : Nat) : ℤ)
          * 15625 -
        (adjustedFrequencyHz 1100 500000 : ℤ) * 256).natAbs := by
  decide

lemma sleepModeReadback (x : Nat) :
    readBits (writeBitsResult (writeBitsResult x 3 0 OP_SLEEP) 1 7 1) 3 0 = OP_SLEEP := by
  rw [readBits_writeBitsResult_disjoint (writeBitsResult x 3 0 OP_SLEEP) 3 0 1 7 1
    (by decide) (by decide) (by decide) (by decide) (Or.inl (by decide)) (by decide)]
  exact readBits_writeBitsResult x 3 0 OP_SLEEP (by decide) (by decide) (by decide) (by decide)

lemma loraModeReadback (x : Nat) :
    readBits (writeBitsResult (writeBitsResult x 3 0 OP_SLEEP) 1 7 1) 1 7 = 1 :=
  readBits_writeBitsResult _ 1 7 1 (by decide) (by decide) (by decide) (by decide)

lemma setFrequencyAndBandwidthR_op_mode (rs : Regs) (f bw : Nat) :
    (setFrequencyAndBandwidthR rs f bw) REG_OP_MODE = rs REG_OP_MODE := by
  unfold setFrequencyAndBandwidthR
  split_ifs <;>
    simp [writeByteR_other, writeBitsR_other, REG_OP_MODE, REG_FRF_MSB, REG_FRF_MID,
      REG_FRF_LSB, REG_MODEM_CONFIG_1]

/-- The register file computed by a successful `init` run (the chain of
store effects that `init` performs once its checks pass, for options whose
spreading factor is not 6 and whose validations succeed). -/
def initSuccessRegs (options : Options) (rs : Regs) : Regs :=
  let r2 := writeBitsR (writeBitsR rs REG_OP_MODE 3 0 OP_SLEEP) REG_OP_MODE 1 7 1
  let r3 := if 525 < options.frequencyMhz then writeBitsR r2 REG_OP_MODE 1 3 0 else r2
  let r4 := writeByteR r3 REG_FIFO_TX_BASE_ADDR 0
  let r5 := writeByteR r4 REG_FIFO_RX_BASE_ADDR 0
  let r6 := writeBitsR r5 REG_OP_MODE 3 0 OP_STANDBY
  let r7 := setPreambleLengthR r6 options.preambleLength
  let r8 := setFrequencyAndBandwidthR r7 options.frequencyMhz options.bandwidthHz
  let r9 := writeBitsR r8 REG_MODEM_CONFIG_2 4 4 options.spreadingFactor
  let r10 := writeBitsR r9 REG_MODEM_CONFIG_1 3 1 (options.codingRate - 4)
  let r11 := setRxCrcR r10 options.enableCrcChecking
  let r12 := setAgcR r11 options.enableAgc
  let r13 := writeByteR r12 REG_PA_DAC (if 20 < options.txPowerDb then 0x87 else 0x84)
  let r14 := writeBitsR r13 REG_PA_CONFIG 1 7 1
  writeBitsR r14 REG_PA_CONFIG 4 0
    (((if 20 < options.txPowerDb then options.txPowerDb - 3 else options.txPowerDb) - 5).toNat)

/-- C3: `init` fails with the device-not-found error when the version
register reads 0x00, fails with the unsupported-version error when it reads
any nonzero byte other than 0x12, and with version 0x12 (the readback of
the Sleep-mode and LoRa flags then succeeds against the written register
file) it succeeds and leaves the chip's 3-bit operating-mode field equal to
Standby. -/
theorem C3_init_version_and_standby (rs : Regs) :
    (rs REG_VERSION = 0 → init defaultOptions rs = .error .deviceNotFound) ∧
    (rs REG_VERSION ≠ 0 → rs REG_VERSION ≠ 0x12 →
      init defaultOptions rs = .error .unsupportedVersion) ∧
    (rs REG_VERSION = 0x12 → ∃ r', init defaultOptions rs = .ok r' ∧
      readFieldR r' REG_OP_MODE 3 0 = OP_STANDBY) := by
  refine ⟨fun h0 => by simp [init, h0], fun h0 h12 => by simp [init, h0, h12], fun hv => ?_⟩
  have hcheck1 : readFieldR (writeBitsR (writeBitsR rs REG_OP_MODE 3 0 OP_SLEEP)
      REG_OP_MODE 1 7 1) REG_OP_MODE 3 0 = OP_SLEEP := by
    unfold readFieldR
    rw [writeBitsR_self _ _ _ _ _ (by decide) (by decide) (by decide),
        writeBitsR_self _ _ _ _ _ (by decide) (by decide) (by decide)]
    exact sleepModeReadback _
  have hcheck2 : readFieldR (writeBitsR (writeBitsR rs REG_OP_MODE 3 0 OP_SLEEP)
      REG_OP_MODE 1 7 1) REG_OP_MODE 1 7 = 1 := by
    unfold readFieldR
    rw [writeBitsR_self _ _ _ _ _ (by decide) (by decide) (by decide),
        writeBitsR_self _ _ _ _ _ (by decide) (by decide) (by decide)]
    exact loraModeReadback _
  refine ⟨initSuccessRegs defaultOptions rs, ?_, ?_⟩
  · simp [init, initSuccessRegs, hv, hcheck1, hcheck2, defaultOptions,
      setSpreadingFactorR, setCodingRateR, setTxPowerR, Bind.bind, Except.bind]
  · unfold initSuccessRegs readFieldR
    simp only [defaultOptions]
    norm_num
    rw [writeBitsR_other _ _ _ _ _ _ (by decide), writeBitsR_other _ _ _ _ _ _ (by decide),
      writeByteR_other _ _ _ _ (by decide)]
    rw [show setAgcR (setRxCrcR (writeBitsR (writeBitsR (setFrequencyAndBandwidthR
        (setPreambleLengthR (writeBitsR (writeByteR (writeByteR (writeBitsR
          (writeBitsR (writeBitsR rs REG_OP_MODE 3 0 OP_SLEEP) REG_OP_MODE 1 7 1)
          REG_OP_MODE 1 3 0) REG_FIFO_TX_BASE_ADDR 0) REG_FIFO_RX_BASE_ADDR 0)
          REG_OP_MODE 3 0 OP_STANDBY) 8) 915 500000)
        REG_MODEM_CONFIG_2 4 4 7) REG_MODEM_CONFIG_1 3 1 1) false) false REG_OP_MODE =
        (writeBitsR (writeByteR (writeByteR (writeBitsR
          (writeBitsR (writeBitsR rs REG_OP_MODE 3 0 OP_SLEEP) REG_OP_MODE 1 7 1)
          REG_OP_MODE 1 3 0) REG_FIFO_TX_BASE_ADDR 0) REG_FIFO_RX_BASE_ADDR 0)
          REG_OP_MODE 3 0 OP_STANDBY) REG_OP_MODE from by
      unfold setAgcR setRxCrcR setPreambleLengthR
      rw [writeBitsR_other _ _ _ _ _ _ (by decide), writeBitsR_other _ _ _ _ _ _ (by decide),
        writeBitsR_other _ _ _ _ _ _ (by decide), writeBitsR_other _ _ _ _ _ _ (by decide),
        setFrequencyAndBandwidthR_op_mode, writeByteR_other _ _ _ _ (by decide),
        writeByteR_other _ _ _ _ (by decide)]]
    rw [writeBitsR_self _ _ _ _ _ (by decide) (by decide) (by decide)]
    exact readBits_writeBitsResult _ _ _ _ (by decide) (by decide) (by decide) (by decide)

theorem C3_init_version_and_standby_witness :
    init defaultOptions (fun _ => 0) = .error .deviceNotFound ∧
    init defaultOptions (fun a => if a = 0x42 then 0x13 else 0) = .error .unsupportedVersion ∧
    ∃ r', init defaultOptions (fun a => if a = 0x42 then 0x12 else 0) = .ok r' ∧
      readFieldR r' REG_OP_MODE 3 0 = OP_STANDBY :=
  ⟨(C3_init_version_and_standby (fun _ => 0)).1 (by decide),
   (C3_init_version_and_standby (fun a => if a = 0x42 then 0x13 else 0)).2.1
     (by decide) (by decide),
   (C3_init_version_and_standby (fun a => if a = 0x42 then 0x12 else 0)).2.2 (by decide)⟩

end RFM9x
